import Mathlib

/-!
Verification of the CO2MPAS-TA repository specification against a shallow
embedding of its source code.

The embedding covers:
* `compas/functions/physical/engine/co2_emission.py` — the CO2 emission
  physical model and its calibration helpers;
* `compas/functions/physical/__init__.py` — the model comparison and
  selection engine (candidate scoring heap);
* `compas/__main__.py` — the command line entry points;
* `co2mpas/model/physical/defaults.py` — the default parameter registry.

Numeric values are embedded as exact rationals.  Python dictionaries are
embedded as association lists where an update puts the new entries in front,
so that lookup (first match) agrees with Python dict lookup after `update`.
External numeric primitives that the code calls (numpy square root and
power) are passed as explicit function parameters, and IEEE special values
(inf, nan) are modelled explicitly where the code relies on them.
-/

set_option autoImplicit false

/-- Python dictionaries with string keys, modelled as association lists with
first-match lookup. -/
abbrev PyDict (β : Type) : Type := List (String × β)

/-- Lookup in a Python dictionary model: the first entry with the given key. -/
def dictLookup {β : Type} : PyDict β → String → Option β
  | [], _ => none
  | kv :: d, k => if kv.1 = k then some kv.2 else dictLookup d k

/-- Python `d.update(e)`: entries of `e` take precedence over entries of `d`.
Modelled by putting `e` in front, which is lookup-equivalent. -/
def dictUpdate {β : Type} (d e : PyDict β) : PyDict β := e ++ d

/-- Python `k in d`. -/
def dictContains {β : Type} (d : PyDict β) (k : String) : Bool :=
  (dictLookup d k).isSome

/-- Keys of a Python dictionary model, in storage order. -/
def dictKeys {β : Type} (d : PyDict β) : List String := d.map (·.1)

theorem dictLookup_append {β : Type} (d e : PyDict β) (k : String) :
    dictLookup (d ++ e) k =
      match dictLookup d k with
      | some v => some v
      | none => dictLookup e k := by
  induction d with
  | nil => rfl
  | cons kv d ih =>
    by_cases h : kv.1 = k
    · simp [dictLookup, h]
    · simp [dictLookup, h, ih]

/-! ## CO2 emission model parameters

Source: `calculate_co2_emissions`, `co2_emission.py` lines 222−233.  The
function starts from a dictionary mapping every coefficient name to `0.0`,
overlays `default_params` when it is truthy (a non-empty dictionary), and
finally overlays `params`. -/

/-- Zero defaults for the CO2 emission model coefficients, in the order they
appear in `calculate_co2_emissions`. -/
def co2_param_zero_defaults : PyDict ℚ :=
  [("a2", 0), ("b2", 0),
   ("a", 0), ("b", 0), ("c", 0),
   ("l", 0), ("l2", 0),
   ("t", 0), ("trg", 0)]

/-- The nine CO2 emission model coefficient names. -/
def co2_param_names : List String :=
  ["a2", "b2", "a", "b", "c", "l", "l2", "t", "trg"]

/-- Effective parameter dictionary built by `calculate_co2_emissions`:
`p = zeros; if default_params: p.update(default_params.copy()); p.update(params)`.
A `none` models passing `default_params=None`; an empty dictionary is falsy in
Python so it is skipped exactly like `None`. -/
def effective_co2_params (params : PyDict ℚ) (default_params : Option (PyDict ℚ)) :
    PyDict ℚ :=
  let p := co2_param_zero_defaults
  let p :=
    match default_params with
    | some d => if d.isEmpty then p else dictUpdate p d
    | none => p
  dictUpdate p params

/-- Resolution rule as the specification words it: `params[k]` if present,
else `default_params[k]` if `default_params` is non-empty and contains `k`,
else `0.0`. -/
def co2_param_resolution_rule (params : PyDict ℚ)
    (default_params : Option (PyDict ℚ)) (k : String) : ℚ :=
  match dictLookup params k with
  | some v => v
  | none =>
    match default_params with
    | some d => if d.isEmpty then 0 else (dictLookup d k).getD 0
    | none => 0

/-! ## Fuel mean effective pressure

Source: `_calculate_fuel_mean_effective_pressure`, `co2_emission.py` lines
74−90.  The numpy primitives `np.power` and `np.sqrt` are passed as explicit
function parameters `pw` and `sqrt`. -/

/-- CO2 emission model parameter set with all coefficient fields, as the
dictionaries reaching `_calculate_fuel_mean_effective_pressure` always carry
every key. -/
structure FmepParams where
  a : ℚ
  b : ℚ
  c : ℚ
  a2 : ℚ
  b2 : ℚ
  l : ℚ
  l2 : ℚ
  t : ℚ
  trg : ℚ

/-- Shallow embedding of `_calculate_fuel_mean_effective_pressure`.  Returns
the pair the source returns: `(-C / B, B)` in the degenerate case and
`((-B + v) / A_2, v)` otherwise. -/
def _calculate_fuel_mean_effective_pressure
    (sqrt : ℚ → ℚ) (pw : ℚ → ℚ → ℚ) (p : FmepParams)
    (n_speeds n_powers n_temperatures : ℚ) : ℚ × ℚ :=
  let B := p.a + (p.b + p.c * n_speeds) * n_speeds
  let C := pw n_temperatures (-p.t) * (p.l + p.l2 * n_speeds ^ 2) - n_powers
  if p.a2 = 0 ∧ p.b2 = 0 then
    (-C / B, B)
  else
    let A_2 := 2 * (p.a2 + p.b2 * n_speeds)
    let v := sqrt |B ^ 2 - 2 * A_2 * C|
    ((-B + v) / A_2, v)

/-! ## Cycle phase integration times

Source: `select_phases_integration_times`, `co2_emission.py` lines 343−361,
and the registry copy `Functions.select_phases_integration_times
.INTEGRATION_TIMES`, `defaults.py` lines 256−261. -/

/-- Python `str.upper()` on ASCII strings, modelled character by character. -/
def pyUpper (s : String) : String := String.mk (s.data.map Char.toUpper)

/-- Shallow embedding of `select_phases_integration_times` (the dictionary
lookup keyed by `cycle_type.upper()`; an unknown key raises, modelled as
`none`). -/
def select_phases_integration_times (cycle_type : String) : Option (List ℚ) :=
  if pyUpper cycle_type = "WLTP" then
    some [0, 590, 1023, 1478, 1801]
  else if pyUpper cycle_type = "NEDC" then
    some [0, 780, 1181]
  else
    none

/-- The defaults registry copy of the integration-times table
(`INTEGRATION_TIMES` in `defaults.py`). -/
def defaults_INTEGRATION_TIMES (cycle : String) : Option (List ℚ) :=
  if cycle = "WLTP" then
    some [0, 590, 1023, 1478, 1800]
  else if cycle = "NEDC" then
    some [0, 780, 1180]
  else
    none

/-- C2: for every parameter set and every normalized speed, power and
temperature sample, the fuel mean effective pressure equals `-C / B` when
`a2 = 0` and `b2 = 0`, and otherwise equals `(-B + sqrt |B^2 - 2*A2*C|) / A2`
with `A2 = 2*(a2 + b2*n_speed)`, where `B = a + (b + c*n_speed)*n_speed` and
`C = n_temp^(-t)*(l + l2*n_speed^2) - n_power`. -/
theorem fmep_matches_spec_formula
    (sqrt : ℚ → ℚ) (pw : ℚ → ℚ → ℚ) (p : FmepParams)
    (n_speed n_power n_temp : ℚ) :
    (_calculate_fuel_mean_effective_pressure sqrt pw p n_speed n_power n_temp).1 =
      if p.a2 = 0 ∧ p.b2 = 0 then
        -(pw n_temp (-p.t) * (p.l + p.l2 * n_speed ^ 2) - n_power) /
          (p.a + (p.b + p.c * n_speed) * n_speed)
      else
        (-(p.a + (p.b + p.c * n_speed) * n_speed) +
            sqrt |(p.a + (p.b + p.c * n_speed) * n_speed) ^ 2 -
              2 * (2 * (p.a2 + p.b2 * n_speed)) *
                (pw n_temp (-p.t) * (p.l + p.l2 * n_speed ^ 2) - n_power)|) /
          (2 * (p.a2 + p.b2 * n_speed)) := by
  unfold _calculate_fuel_mean_effective_pressure
  split <;> rfl

/-- C5: the CO2 module's own integration-times table returns exactly
`(0, 590, 1023, 1478, 1801)` for WLTP and `(0, 780, 1181)` for NEDC, while
the defaults registry copy holds `(0, 590, 1023, 1478, 1800)` and
`(0, 780, 1180)`: the two copies differ by one second in their last
element. -/
theorem phases_integration_times_tables :
    select_phases_integration_times "WLTP" =
        some [0, 590, 1023, 1478, 1801] ∧
      select_phases_integration_times "NEDC" = some [0, 780, 1181] ∧
      defaults_INTEGRATION_TIMES "WLTP" = some [0, 590, 1023, 1478, 1800] ∧
      defaults_INTEGRATION_TIMES "NEDC" = some [0, 780, 1180] ∧
      (1801 : ℚ) = 1800 + 1 ∧ (1181 : ℚ) = 1180 + 1 := by
  refine ⟨rfl, rfl, rfl, rfl, by norm_num, by norm_num⟩

/-! ## Parameter resolution in `calculate_co2_emissions` (C9) -/

theorem dictLookup_eq_none_of_keys {β : Type} (d : PyDict β) (ks : List String)
    (k : String) (hall : d.all (fun kv => ks.contains kv.1) = true)
    (hk : ks.contains k = false) : dictLookup d k = none := by
  induction d with
  | nil => rfl
  | cons kv d ih =>
    simp only [List.all_cons, Bool.and_eq_true] at hall
    by_cases h : kv.1 = k
    · rw [h] at hall
      rw [hall.1] at hk
      exact absurd hk (by simp)
    · simpa [dictLookup, h] using ih hall.2

/-- C9: for every `params`, every `default_params` and every coefficient key,
the effective value used by `calculate_co2_emissions` is `params[k]` when
present, else `default_params[k]` when `default_params` is non-empty and
contains `k`, else `0.0`; an entirely empty `default_params` dictionary is
treated the same as passing none at all. -/
theorem co2_params_resolution (params : PyDict ℚ)
    (default_params : Option (PyDict ℚ)) (k : String)
    (hk : k ∈ co2_param_names) :
    dictLookup (effective_co2_params params default_params) k =
      some (co2_param_resolution_rule params default_params k) := by
  have hbase : dictLookup co2_param_zero_defaults k = some 0 := by
    fin_cases hk <;> rfl
  unfold effective_co2_params co2_param_resolution_rule dictUpdate
  rw [dictLookup_append]
  cases hp : dictLookup params k with
  | some v => rfl
  | none =>
    cases default_params with
    | none => simpa using hbase
    | some d =>
      cases hd : d.isEmpty with
      | true => simpa [hd] using hbase
      | false =>
        simp only [hd, Bool.false_eq_true, if_false]
        rw [dictLookup_append]
        cases hdl : dictLookup d k with
        | some w => simp
        | none => simpa using hbase

/-- Witness for `co2_params_resolution` at a concrete input: `trg` is looked
up in a non-empty `default_params` when absent from `params`. -/
theorem co2_params_resolution_witness :
    "trg" ∈ co2_param_names ∧
      dictLookup (effective_co2_params [("a", 1/2)] (some [("trg", 85)])) "trg" =
        some (co2_param_resolution_rule [("a", 1/2)] (some [("trg", 85)]) "trg") :=
  ⟨by decide, co2_params_resolution [("a", 1/2)] (some [("trg", 85)]) "trg" (by decide)⟩

/-! ## The hot-phase stage of `calibrate_co2_params` (C1)

Source: `calibrate_co2_params`, `co2_emission.py` lines 686−725.  The cold
mask is `temps < co2_params_initial_guess['trg']`, the hot mask its logical
complement; the hot stage is `calibrate(hot_p, default_params={},
sub_values=hot)` with `hot_p = ['a2', 'a', 'b', 'c', 'l', 'l2']`, whose error
function is `co2_error_function_on_emissions` evaluated at candidate
dictionaries over the `hot_p` keys with an EMPTY `default_params`
dictionary. -/

/-- The coefficient names fitted in the hot stage. -/
def hot_p : List String := ["a2", "a", "b", "c", "l", "l2"]

/-- Cold mask: `temps < co2_params_initial_guess['trg']` element-wise. -/
def co2_cold_mask (engine_coolant_temperatures : List ℚ) (trg : ℚ) : List Bool :=
  engine_coolant_temperatures.map (fun θ => decide (θ < trg))

/-- Hot mask: `np.logical_not(cold)`. -/
def co2_hot_mask (engine_coolant_temperatures : List ℚ) (trg : ℚ) : List Bool :=
  (co2_cold_mask engine_coolant_temperatures trg).map not

/-- Dictionary comprehension `{k: v for k, v in d.items() if k in id_p}` used
by the `calibrate` closure to build stage limits and initial guesses. -/
def dictFilterKeys {β : Type} (d : PyDict β) (id_p : List String) : PyDict β :=
  d.filter (fun kv => id_p.contains kv.1)

/-- The `default_params` argument the hot stage passes down to the model:
the EMPTY dictionary from `calibrate(hot_p, default_params={}, sub_values=hot)`. -/
def hot_stage_default_params : Option (PyDict ℚ) := some []

/-- Effective coefficient dictionary seen by `calculate_co2_emissions` when
the hot stage evaluates a candidate parameter dictionary. -/
def hot_stage_effective_params (cand : PyDict ℚ) : PyDict ℚ :=
  effective_co2_params cand hot_stage_default_params

/-- Numpy boolean-mask indexing `xs[mask]`. -/
def maskFilter (xs : List ℚ) (mask : List Bool) : List ℚ :=
  (xs.zip mask).filterMap (fun p => if p.2 then some p.1 else none)

/-- Sklearn `mean_squared_error` on equal-length vectors. -/
def mean_squared_error (y_true y_pred : List ℚ) : ℚ :=
  (List.zipWith (fun a b => (a - b) ^ 2) y_true y_pred).sum / y_true.length

/-- Shallow embedding of the closure built by
`define_co2_error_function_on_emissions`, in the case where a boolean mask is
supplied: compare the masked measured emissions with the model output. -/
def co2_error_function_on_emissions
    (co2_emissions_model : PyDict ℚ → Option (PyDict ℚ) → List Bool → List ℚ)
    (co2_emissions : List ℚ) (params : PyDict ℚ)
    (default_params : Option (PyDict ℚ)) (sub_values : List Bool) : ℚ :=
  mean_squared_error (maskFilter co2_emissions sub_values)
    (co2_emissions_model params default_params sub_values)

/-- The hot-stage objective of `calibrate_co2_params`: the emissions error
function evaluated with the empty `default_params` dictionary and the hot
mask as `sub_values`. -/
def hot_stage_objective
    (co2_emissions_model : PyDict ℚ → Option (PyDict ℚ) → List Bool → List ℚ)
    (co2_emissions engine_coolant_temperatures : List ℚ) (trg : ℚ)
    (cand : PyDict ℚ) : ℚ :=
  co2_error_function_on_emissions co2_emissions_model co2_emissions cand
    hot_stage_default_params
    (co2_hot_mask engine_coolant_temperatures trg)

/-- C1 (amended): the hot mask selects exactly the samples with coolant
temperature at or above the initial guess for `trg`; the hot-stage objective
is the emissions mean-squared error restricted to those samples; and for
every candidate dictionary over the fitted keys `{a2, a, b, c, l, l2}` the
model is evaluated with effective `t = 0` and `trg = 0` (the stage passes an
empty `default_params`, so `t` and `trg` fall back to the zero defaults), not
with the initial-guess values. -/
theorem calibrate_co2_params_hot_stage
    (co2_emissions_model : PyDict ℚ → Option (PyDict ℚ) → List Bool → List ℚ)
    (co2_emissions engine_coolant_temperatures : List ℚ)
    (co2_params_initial_guess : PyDict ℚ) (trg : ℚ)
    (_htrg : dictLookup co2_params_initial_guess "trg" = some trg)
    (cand : PyDict ℚ)
    (hcand : cand.all (fun kv => hot_p.contains kv.1) = true) :
    co2_hot_mask engine_coolant_temperatures trg =
        engine_coolant_temperatures.map (fun θ => decide (trg ≤ θ)) ∧
      hot_stage_objective co2_emissions_model co2_emissions
          engine_coolant_temperatures trg cand =
        mean_squared_error
          (maskFilter co2_emissions
            (co2_hot_mask engine_coolant_temperatures trg))
          (co2_emissions_model cand (some [])
            (co2_hot_mask engine_coolant_temperatures trg)) ∧
      dictLookup (hot_stage_effective_params cand) "t" = some 0 ∧
      dictLookup (hot_stage_effective_params cand) "trg" = some 0 := by
  have ht : dictLookup cand "t" = none :=
    dictLookup_eq_none_of_keys cand hot_p "t" hcand (by decide)
  have htr : dictLookup cand "trg" = none :=
    dictLookup_eq_none_of_keys cand hot_p "trg" hcand (by decide)
  refine ⟨?_, rfl, ?_, ?_⟩
  · simp only [co2_hot_mask, co2_cold_mask, List.map_map]
    refine List.map_congr_left fun θ _ => ?_
    simp [Function.comp, ← decide_not, not_lt]
  · simp only [hot_stage_effective_params, effective_co2_params,
      hot_stage_default_params, List.isEmpty_nil, if_true, dictUpdate]
    rw [dictLookup_append, ht]
    rfl
  · simp only [hot_stage_effective_params, effective_co2_params,
      hot_stage_default_params, List.isEmpty_nil, if_true, dictUpdate]
    rw [dictLookup_append, htr]
    rfl

/-- Witness for `calibrate_co2_params_hot_stage` at concrete inputs. -/
theorem calibrate_co2_params_hot_stage_witness :
    dictLookup [("t", (9 : ℚ)/2), ("trg", 85)] "trg" = some 85 ∧
      ([(("a2" : String), -(1 : ℚ)/500)].all (fun kv => hot_p.contains kv.1) = true) ∧
      dictLookup (hot_stage_effective_params [("a2", -(1 : ℚ)/500)]) "t" = some 0 ∧
      dictLookup (hot_stage_effective_params [("a2", -(1 : ℚ)/500)]) "trg" = some 0 :=
  ⟨by rfl, by decide,
    (calibrate_co2_params_hot_stage (fun _ _ _ => []) [] []
      [("t", (9 : ℚ)/2), ("trg", 85)] 85 (by rfl)
      [("a2", -(1 : ℚ)/500)] (by decide)).2.2.1,
    (calibrate_co2_params_hot_stage (fun _ _ _ => []) [] []
      [("t", (9 : ℚ)/2), ("trg", 85)] 85 (by rfl)
      [("a2", -(1 : ℚ)/500)] (by decide)).2.2.2⟩

/-- C1 counterexample: with the initial guess `t = 4.5`, `trg = 85`, the
hot-stage model evaluation of the candidate `{a2: -0.002}` uses effective
`t = 0` and `trg = 0`, which differ from the initial-guess values, refuting
the claim that `t` and `trg` are held at their initial-guess values during
the hot fit. -/
theorem calibrate_co2_params_hot_stage_cex :
    dictLookup (hot_stage_effective_params [("a2", -(1 : ℚ)/500)]) "trg" = some 0 ∧
      dictLookup (hot_stage_effective_params [("a2", -(1 : ℚ)/500)]) "t" = some 0 ∧
      dictLookup [("t", (9 : ℚ)/2), ("trg", (85 : ℚ))] "trg" = some 85 ∧
      dictLookup [("t", (9 : ℚ)/2), ("trg", (85 : ℚ))] "t" = some (9/2) ∧
      (0 : ℚ) ≠ 85 ∧ (0 : ℚ) ≠ 9/2 := by
  refine ⟨by rfl, by rfl, by rfl, by rfl, by norm_num, by norm_num⟩

/-! ## Bound restriction (C4)

Source: `restrict_bounds`, `co2_emission.py` lines 728−761.  `fun = [max,
min]` zipped with the bound pair and the multiplier pair gives
`(max(bound_min, v*mul_lo), min(bound_max, v*mul_hi))` per coefficient of the
initial guess. -/

/-- The per-coefficient multiplier table `mul` inside `restrict_bounds`. -/
def restrict_bounds_mul : PyDict (ℚ × ℚ) :=
  [("t", (1/2, 3/2)), ("trg", (9/10, 11/10)),
   ("a", (4/5, 6/5)), ("b", (4/5, 6/5)), ("c", (6/5, 4/5)),
   ("a2", (6/5, 4/5)),
   ("l", (6/5, 4/5)), ("l2", (6/5, 0))]

/-- The `_limits` closure of `restrict_bounds`: looks up the original bounds
and the multipliers of a coefficient (a missing key raises, modelled as
`none`). -/
def restrict_bounds_limits (co2_params_bounds : PyDict (ℚ × ℚ)) (k : String)
    (v : ℚ) : Option (ℚ × ℚ) :=
  match dictLookup co2_params_bounds k, dictLookup restrict_bounds_mul k with
  | some b, some m => some (max b.1 (v * m.1), min b.2 (v * m.2))
  | _, _ => none

/-- Shallow embedding of `restrict_bounds`: the dictionary comprehension
`{k: _limits(k, v) for k, v in co2_params_initial_guess.items()}`. -/
def restrict_bounds (co2_params_bounds : PyDict (ℚ × ℚ))
    (co2_params_initial_guess : PyDict ℚ) : PyDict (ℚ × ℚ) :=
  co2_params_initial_guess.filterMap
    (fun kv => (restrict_bounds_limits co2_params_bounds kv.1 kv.2).map
      (fun l => (kv.1, l)))

theorem restrict_bounds_lookup (co2_params_bounds : PyDict (ℚ × ℚ))
    (guess : PyDict ℚ) (k : String) (v : ℚ) (l : ℚ × ℚ)
    (hg : dictLookup guess k = some v)
    (hl : restrict_bounds_limits co2_params_bounds k v = some l) :
    dictLookup (restrict_bounds co2_params_bounds guess) k = some l := by
  induction guess with
  | nil => exact absurd hg (by simp [dictLookup])
  | cons kv rest ih =>
    rcases kv with ⟨k1, v1⟩
    by_cases h : k1 = k
    · subst h
      have hv : v1 = v := by simpa [dictLookup] using hg
      subst hv
      simp [restrict_bounds, List.filterMap_cons, hl, dictLookup]
    · have hg2 : dictLookup rest k = some v := by
        simpa [dictLookup, h] using hg
      have hrec := ih hg2
      simp only [restrict_bounds, List.filterMap_cons] at hrec ⊢
      cases hf : restrict_bounds_limits co2_params_bounds k1 v1 with
      | none => simpa [hf] using hrec
      | some w => simpa [hf, dictLookup, h] using hrec

/-- C4: for every coefficient `k` in the initial guess with value `v`,
original bounds `(min_k, max_k)` and multipliers `(lo, hi)`, the restricted
interval is `(max(min_k, v*lo), min(max_k, v*hi))`; in particular for `l2`
with value `-0.003` and original bounds `(-0.01, 0.0)` the restricted bounds
are `(max(-0.01, -0.003*1.2), min(0.0, -0.003*0.0)) = (-0.0036, 0.0)`. -/
theorem restrict_bounds_rule :
    (∀ (co2_params_bounds : PyDict (ℚ × ℚ)) (guess : PyDict ℚ) (k : String)
      (v mn mx lo hi : ℚ),
      dictLookup guess k = some v →
      dictLookup co2_params_bounds k = some (mn, mx) →
      dictLookup restrict_bounds_mul k = some (lo, hi) →
      dictLookup (restrict_bounds co2_params_bounds guess) k =
        some (max mn (v * lo), min mx (v * hi))) ∧
    dictLookup
        (restrict_bounds [("l2", (-(1 : ℚ)/100, 0))] [("l2", -(3 : ℚ)/1000)])
        "l2" =
      some (-(9 : ℚ)/2500, 0) := by
  constructor
  · intro bounds guess k v mn mx lo hi hg hb hm
    exact restrict_bounds_lookup bounds guess k v _ hg
      (by simp [restrict_bounds_limits, hb, hm])
  · have h := restrict_bounds_lookup [("l2", (-(1 : ℚ)/100, 0))]
      [("l2", -(3 : ℚ)/1000)] "l2" (-(3 : ℚ)/1000)
      (max (-(1 : ℚ)/100) (-(3 : ℚ)/1000 * (6/5)),
        min (0 : ℚ) (-(3 : ℚ)/1000 * 0)) rfl rfl
    rw [h]
    norm_num

/-- Witness for the universally quantified part of `restrict_bounds_rule` at
the coefficient `t` with value `4`, bounds `(0, 8)` and multipliers
`(1/2, 3/2)`. -/
theorem restrict_bounds_rule_witness :
    dictLookup (restrict_bounds [("t", ((0 : ℚ), 8))] [("t", (4 : ℚ))]) "t" =
      some (max 0 ((4 : ℚ) * (1/2)), min 8 ((4 : ℚ) * (3/2))) :=
  restrict_bounds_rule.1 [("t", ((0 : ℚ), 8))] [("t", (4 : ℚ))] "t" 4 0 8
    (1/2) (3/2) rfl rfl rfl

/-! ## Initial CO2 parameter guess (C10)

Source: `select_initial_co2_emission_model_params_guess`, `co2_emission.py`
lines 449−525.  A base dictionary carrying only `t` and `trg` is updated
with the per-engine-type table carrying `a, b, c, a2, l, l2`. -/

/-- Base initial guess: `{"t": 4.5, "trg": engine_normalization_temperature}`. -/
def initial_co2_params_x0_base (engine_normalization_temperature : ℚ) :
    PyDict ℚ :=
  [("t", 4.5), ("trg", engine_normalization_temperature)]

/-- Base bounds: `{"t": (0.0, 8.0), "trg": window}`. -/
def initial_co2_params_bounds_base
    (engine_normalization_temperature_window : ℚ × ℚ) : PyDict (ℚ × ℚ) :=
  [("t", (0, 8)), ("trg", engine_normalization_temperature_window)]

/-- Per-engine-type initial coefficient values (`x0` sub-dictionaries of the
`params` table). -/
def engine_type_params_x0 (engine_type : String) : Option (PyDict ℚ) :=
  if engine_type = "gasoline turbo" then
    some [("a", 0.468678), ("b", 0.011859),
          ("c", -0.00069), ("a2", -0.00266),
          ("l", -2.49882), ("l2", -0.0025)]
  else if engine_type = "gasoline natural aspiration" then
    some [("a", 0.4719), ("b", 0.01193),
          ("c", -0.00065), ("a2", -0.00385),
          ("l", -2.14063), ("l2", -0.00286)]
  else if engine_type = "diesel" then
    some [("a", 0.391197), ("b", 0.028604),
          ("c", -0.00196), ("a2", -0.0012),
          ("l", -1.55291), ("l2", -0.0076)]
  else
    none

/-- Per-engine-type coefficient bounds (`bounds` sub-dictionaries of the
`params` table). -/
def engine_type_params_bounds (engine_type : String) :
    Option (PyDict (ℚ × ℚ)) :=
  if engine_type = "gasoline turbo" then
    some [("a", (0.398589, 0.538767)), ("b", (0.006558, 0.01716)),
          ("c", (-0.00099, -0.00038)), ("a2", (-0.00354, -0.00179)),
          ("l", (-3.27698, -1.72066)), ("l2", (-0.00796, 0.0))]
  else if engine_type = "gasoline natural aspiration" then
    some [("a", (0.40065, 0.54315)), ("b", (-0.00247, 0.026333)),
          ("c", (-0.00138, 0.0000888)), ("a2", (-0.00663, -0.00107)),
          ("l", (-3.17876, -1.1025)), ("l2", (-0.00577, 0.0))]
  else if engine_type = "diesel" then
    some [("a", (0.346548, 0.435846)), ("b", (0.002519, 0.054688)),
          ("c", (-0.00386, -0.000057)), ("a2", (-0.00233, -0.000064)),
          ("l", (-2.2856, -0.82022)), ("l2", (-0.01852, 0.0))]
  else
    none

/-- Shallow embedding of `select_initial_co2_emission_model_params_guess`:
update the temperature-dependent base with the per-engine-type tables (an
unknown engine type raises, modelled as `none`). -/
def select_initial_co2_emission_model_params_guess (engine_type : String)
    (engine_normalization_temperature : ℚ)
    (engine_normalization_temperature_window : ℚ × ℚ) :
    Option (PyDict ℚ × PyDict (ℚ × ℚ)) :=
  match engine_type_params_x0 engine_type,
      engine_type_params_bounds engine_type with
  | some ex, some eb =>
      some
        (dictUpdate (initial_co2_params_x0_base engine_normalization_temperature) ex,
         dictUpdate (initial_co2_params_bounds_base
            engine_normalization_temperature_window) eb)
  | _, _ => none

/-- The eight coefficient names produced by the initial-guess selector. -/
def co2_guess_param_names : List String :=
  ["a", "b", "c", "a2", "l", "l2", "t", "trg"]

/-- C10: for each of the three engine types and every normalization
temperature and window, the returned initial-guess and bounds dictionaries
both have key set exactly `{a, b, c, a2, l, l2, t, trg}`; in particular `b2`
is never among the keys. -/
theorem initial_guess_key_sets (engine_type : String)
    (het : engine_type = "gasoline turbo" ∨
      engine_type = "gasoline natural aspiration" ∨ engine_type = "diesel")
    (engine_normalization_temperature : ℚ)
    (engine_normalization_temperature_window : ℚ × ℚ) :
    ∃ x0 bounds,
      select_initial_co2_emission_model_params_guess engine_type
          engine_normalization_temperature
          engine_normalization_temperature_window = some (x0, bounds) ∧
        dictKeys x0 = co2_guess_param_names ∧
        dictKeys bounds = co2_guess_param_names ∧
        "b2" ∉ dictKeys x0 ∧ "b2" ∉ dictKeys bounds := by
  rcases het with rfl | rfl | rfl <;>
    refine ⟨_, _, rfl, rfl, rfl, ?_, ?_⟩ <;>
      exact (by decide : "b2" ∉ co2_guess_param_names)

/-- Witness for `initial_guess_key_sets` at the diesel engine type. -/
theorem initial_guess_key_sets_witness :
    ("diesel" = "gasoline turbo" ∨
        "diesel" = "gasoline natural aspiration" ∨ "diesel" = "diesel") ∧
      ∃ x0 bounds,
        select_initial_co2_emission_model_params_guess "diesel" 90 (85, 95) =
            some (x0, bounds) ∧
          dictKeys x0 = co2_guess_param_names ∧
          dictKeys bounds = co2_guess_param_names ∧
          "b2" ∉ dictKeys x0 ∧ "b2" ∉ dictKeys bounds :=
  ⟨by decide, initial_guess_key_sets "diesel" (by decide) 90 (85, 95)⟩

/-! ## Brake mean effective pressure with zero engine speed (C3)

Source: `calculate_brake_mean_effective_pressures`, `co2_emission.py` lines
47−71: `p = (1200000.0 / engine_capacity) * engine_powers_out /
engine_speeds_out; return np.nan_to_num(p)`.  Numpy float64 element-wise
arithmetic follows IEEE-754: a zero divided by zero is NaN and a nonzero
finite value divided by zero is a signed infinity (no exception is raised on
arrays).  `np.nan_to_num` replaces NaN by `0.0` and the infinities by the
largest-magnitude finite float64 value, NOT by zero.  Values are modelled as
exact rationals extended with the special values; float rounding is ignored,
which is sound for the division-by-zero behaviour at stake here. -/

/-- Numpy float64 value: a finite number (idealized as an exact rational), a
signed infinity, or NaN. -/
inductive PyFloat where
  | finite (q : ℚ)
  | inf
  | neginf
  | nan
deriving DecidableEq

/-- The largest finite float64 value `1.7976931348623157e308`, exactly
`(2^53 - 1) * 2^971`. -/
def FLOAT_MAX : ℚ := (2 ^ 53 - 1) * 2 ^ 971

/-- IEEE-754 multiplication on the extended values. -/
def pfMul : PyFloat → PyFloat → PyFloat
  | .nan, _ => .nan
  | _, .nan => .nan
  | .finite a, .finite b => .finite (a * b)
  | .finite a, .inf => if a = 0 then .nan else if 0 < a then .inf else .neginf
  | .finite a, .neginf => if a = 0 then .nan else if 0 < a then .neginf else .inf
  | .inf, .finite b => if b = 0 then .nan else if 0 < b then .inf else .neginf
  | .neginf, .finite b => if b = 0 then .nan else if 0 < b then .neginf else .inf
  | .inf, .inf => .inf
  | .inf, .neginf => .neginf
  | .neginf, .inf => .neginf
  | .neginf, .neginf => .inf

/-- IEEE-754 division on the extended values (signed zeros are not
modelled). -/
def pfDiv : PyFloat → PyFloat → PyFloat
  | .nan, _ => .nan
  | _, .nan => .nan
  | .finite a, .finite b =>
      if b = 0 then
        (if a = 0 then .nan else if 0 < a then .inf else .neginf)
      else .finite (a / b)
  | .finite _, .inf => .finite 0
  | .finite _, .neginf => .finite 0
  | .inf, .finite b => if 0 ≤ b then .inf else .neginf
  | .neginf, .finite b => if 0 ≤ b then .neginf else .inf
  | .inf, .inf => .nan
  | .inf, .neginf => .nan
  | .neginf, .inf => .nan
  | .neginf, .neginf => .nan

/-- Numpy `nan_to_num` with default arguments: NaN becomes `0.0`, the
infinities become the largest-magnitude finite float64 values. -/
def nan_to_num : PyFloat → PyFloat
  | .nan => .finite 0
  | .inf => .finite FLOAT_MAX
  | .neginf => .finite (-FLOAT_MAX)
  | .finite a => .finite a

/-- Shallow embedding of `calculate_brake_mean_effective_pressures`. -/
def calculate_brake_mean_effective_pressures
    (engine_speeds_out engine_powers_out engine_capacity : PyFloat) : PyFloat :=
  nan_to_num
    (pfDiv (pfMul (pfDiv (.finite 1200000) engine_capacity) engine_powers_out)
      engine_speeds_out)

/-- C3 (amended): with `engine_speeds_out = 0` and a positive engine
capacity, the function never raises (it is total): it returns `0` exactly
when the power is `0` (the NaN from `0/0` is coerced to zero), while for
nonzero power the infinite quotient is coerced to the largest-magnitude
finite float `±1.7976931348623157e308`, not to `0`. -/
theorem bmep_zero_speed (P cap : ℚ) (hcap : 0 < cap) :
    calculate_brake_mean_effective_pressures (.finite 0) (.finite P)
        (.finite cap) =
      .finite (if P = 0 then 0 else if 0 < P then FLOAT_MAX else -FLOAT_MAX) := by
  have hc0 : cap ≠ 0 := ne_of_gt hcap
  have hpos : 0 < (1200000 : ℚ) / cap := div_pos (by norm_num) hcap
  have h1 : pfDiv (.finite 1200000) (.finite cap) = .finite (1200000 / cap) := by
    simp [pfDiv, hc0]
  have h2 : pfMul (.finite ((1200000 : ℚ) / cap)) (.finite P) =
      .finite (1200000 / cap * P) := by
    simp [pfMul]
  unfold calculate_brake_mean_effective_pressures
  rw [h1, h2]
  by_cases hP : P = 0
  · subst hP
    simp [pfDiv, nan_to_num]
  · rcases lt_or_gt_of_ne hP with hlt | hgt
    · have hnum : (1200000 : ℚ) / cap * P < 0 := mul_neg_of_pos_of_neg hpos hlt
      rw [if_neg hP, if_neg (not_lt.mpr hlt.le)]
      simp [pfDiv, hnum.ne, not_lt.mpr hnum.le, nan_to_num]
    · have hnum : 0 < (1200000 : ℚ) / cap * P := mul_pos hpos hgt
      rw [if_neg hP, if_pos hgt]
      simp [pfDiv, hnum.ne.symm, hnum, nan_to_num]

/-- Witness for `bmep_zero_speed` at power `5` kW and capacity `2` cm3. -/
theorem bmep_zero_speed_witness :
    (0 : ℚ) < 2 ∧
      calculate_brake_mean_effective_pressures (.finite 0) (.finite 5)
          (.finite 2) =
        .finite (if (5 : ℚ) = 0 then 0 else if (0 : ℚ) < 5 then FLOAT_MAX
          else -FLOAT_MAX) :=
  ⟨by norm_num, bmep_zero_speed 5 2 (by norm_num)⟩

/-- C3 counterexample: with capacity `1200000` cm3 and power `5` kW at zero
engine speed the function returns the largest finite float, not `0`,
refuting the claim that infinite division results are coerced to `0`. -/
theorem bmep_zero_speed_cex :
    calculate_brake_mean_effective_pressures (.finite 0) (.finite 5)
        (.finite 1200000) = .finite FLOAT_MAX ∧
      PyFloat.finite FLOAT_MAX ≠ .finite 0 := by
  constructor
  · have h1 : pfDiv (.finite 1200000) (.finite 1200000) =
        .finite ((1200000 : ℚ) / 1200000) := by norm_num [pfDiv]
    have h2 : pfMul (.finite ((1200000 : ℚ) / 1200000)) (.finite 5) =
        .finite (1200000 / 1200000 * 5) := by simp [pfMul]
    unfold calculate_brake_mean_effective_pressures
    rw [h1, h2]
    norm_num [pfDiv, nan_to_num]
  · intro h
    have : FLOAT_MAX = 0 := PyFloat.finite.inj h
    rw [FLOAT_MAX] at this
    norm_num at this

/-! ## The template command (C7)

Source: `_cmd_template`, `__main__.py` lines 67−85.  For each destination
path: normalize with `os.path.abspath` (an external primitive, passed as a
function parameter), append `.xlsx` when absent, raise `CmdException` when
the destination exists and `--force` is not set, raise when the destination
is a directory, else copy the bundled template over the destination.  The
file system is modelled as an association list from absolute paths to
entries. -/

/-- A file-system entry: a regular file with contents, or a directory. -/
inductive FsEntry (α : Type) where
  | file (content : α)
  | dir
deriving DecidableEq

/-- File-system state: mapping from absolute path to entry. -/
abbrev FileSystem (α : Type) := PyDict (FsEntry α)

/-- The `CmdException` failures `_cmd_template` can raise, each carrying the
offending destination path exactly as the message does. -/
inductive CmdException where
  | alreadyExists (path : String)
  | invalidTarget (path : String)
deriving DecidableEq

/-- Destination normalization of `_cmd_template`: `os.path.abspath` followed
by appending `.xlsx` when the path does not already end with it. -/
def template_dst (abspath : String → String) (fpath : String) : String :=
  let p := abspath fpath
  if p.endsWith ".xlsx" then p else p ++ ".xlsx"

/-- Python `os.path.isdir` on the modelled file system. -/
def isDirAt {α : Type} (fs : FileSystem α) (p : String) : Bool :=
  match dictLookup fs p with
  | some .dir => true
  | _ => false

/-- One iteration of the `for fpath in dst_fpaths` loop of `_cmd_template`. -/
def _cmd_template_step {α : Type} (abspath : String → String) (template : α)
    (force : Bool) (fs : FileSystem α) (fpath : String) :
    Except CmdException (FileSystem α) :=
  let p := template_dst abspath fpath
  if (dictLookup fs p).isSome && !force then
    .error (.alreadyExists p)
  else if isDirAt fs p then
    .error (.invalidTarget p)
  else
    .ok ((p, .file template) :: fs)

/-- Shallow embedding of `_cmd_template` over its list of destination
paths; the first raised `CmdException` aborts the loop. -/
def _cmd_template {α : Type} (abspath : String → String) (template : α)
    (force : Bool) (paths : List String) (fs : FileSystem α) :
    Except CmdException (FileSystem α) :=
  paths.foldlM (fun s q => _cmd_template_step abspath template force s q) fs

/-- C7: for every destination path whose normalized form is not yet present,
the first `template` invocation succeeds and writes the template; invoking a
second time without `--force` fails with `AlreadyExists` naming that file
and leaves the file in place; invoking a second time with `--force` succeeds
and overwrites the file. -/
theorem template_twice (α : Type) (abspath : String → String) (template : α)
    (fs : FileSystem α) (fpath : String)
    (hfresh : dictLookup fs (template_dst abspath fpath) = none) :
    ∃ fs1,
      _cmd_template abspath template false [fpath] fs = .ok fs1 ∧
        dictLookup fs1 (template_dst abspath fpath) = some (.file template) ∧
        _cmd_template abspath template false [fpath] fs1 =
          .error (.alreadyExists (template_dst abspath fpath)) ∧
        ∃ fs2,
          _cmd_template abspath template true [fpath] fs1 = .ok fs2 ∧
            dictLookup fs2 (template_dst abspath fpath) = some (.file template) := by
  refine ⟨(template_dst abspath fpath, .file template) :: fs, ?_, ?_, ?_, ?_⟩
  · simp [_cmd_template, List.foldlM, _cmd_template_step, hfresh, isDirAt]
  · simp [dictLookup]
  · simp [_cmd_template, List.foldlM, _cmd_template_step, dictLookup]
  · refine ⟨(template_dst abspath fpath, .file template) ::
      (template_dst abspath fpath, .file template) :: fs, ?_, ?_⟩
    · simp [_cmd_template, List.foldlM, _cmd_template_step, dictLookup, isDirAt]
    · simp [dictLookup]

/-- Witness for `template_twice` on an empty file system with destination
`vehicle`, identity `abspath` and template contents `"TPL"`. -/
theorem template_twice_witness :
    dictLookup ([] : FileSystem String) (template_dst id "vehicle") = none ∧
      ∃ fs1,
        _cmd_template id "TPL" false ["vehicle"] ([] : FileSystem String) =
            .ok fs1 ∧
          dictLookup fs1 (template_dst id "vehicle") = some (.file "TPL") ∧
          _cmd_template id "TPL" false ["vehicle"] fs1 =
            .error (.alreadyExists (template_dst id "vehicle")) ∧
          ∃ fs2,
            _cmd_template id "TPL" true ["vehicle"] fs1 = .ok fs2 ∧
              dictLookup fs2 (template_dst id "vehicle") = some (.file "TPL") :=
  ⟨by decide, template_twice String id "TPL" [] "vehicle" (by decide)⟩

/-! ## The ipynb command and the top-level exception handler (C8)

Source: `_cmd_ipynb`, `__main__.py` lines 58−59, raises
`NotImplementedError`; `main`, lines 170−174, catches ONLY `CmdException`
and converts it into `exit(message)`.  Any other exception — including the
`NotImplementedError` from `ipynb` — propagates out of `main` as an
unhandled exception with a raw stack trace. -/

/-- The exceptions relevant to the CLI entry point. -/
inductive PyException where
  | cmdException (message : String)
  | notImplementedError
deriving DecidableEq

/-- Shallow embedding of `_cmd_ipynb`: it unconditionally raises
`NotImplementedError`, for every parsed option mapping. -/
def _cmd_ipynb {α : Type} (_opts : α) : Except PyException Unit :=
  .error .notImplementedError

/-- Observable outcome of running `main`. -/
inductive MainOutcome where
  | finished
  | exitWithMessage (message : String)
  | uncaughtException (e : PyException)
deriving DecidableEq

/-- Shallow embedding of the `try/except CmdException` handler in `main`:
a `CmdException` becomes a terminating user message via `exit(ex.args[0])`;
every other exception escapes unhandled. -/
def mainHandler (r : Except PyException Unit) : MainOutcome :=
  match r with
  | .ok _ => .finished
  | .error (.cmdException m) => .exitWithMessage m
  | .error e => .uncaughtException e

/-- Whether an outcome is a caught, user-facing terminating message. -/
def MainOutcome.isUserMessageExit : MainOutcome → Bool
  | .exitWithMessage _ => true
  | _ => false

/-- Running `main` on an invocation that dispatches to the `ipynb`
sub-command. -/
def main_on_ipynb {α : Type} (opts : α) : MainOutcome :=
  mainHandler (_cmd_ipynb opts)

/-- C8 (amended): every `ipynb` invocation fails with `NotImplementedError`,
which the top-level handler does NOT catch (it catches only `CmdException`),
so the failure escapes as an unhandled exception with a raw stack trace
rather than being reported as a terminating user message. -/
theorem ipynb_uncaught (α : Type) (opts : α) :
    main_on_ipynb opts = .uncaughtException .notImplementedError ∧
      (main_on_ipynb opts).isUserMessageExit = false :=
  ⟨rfl, rfl⟩

/-- C8 counterexample: at a concrete invocation the outcome of `main` on
`ipynb` is an unhandled `NotImplementedError`, not a terminating user
message, refuting the claim that the failure is caught at the top of the
CLI. -/
theorem ipynb_uncaught_cex :
    main_on_ipynb () = .uncaughtException .notImplementedError ∧
      (main_on_ipynb ()).isUserMessageExit = false := by
  decide

/-! ## The model selector candidate heap (C6)

Source: `model_selector` and `compare_result`, `physical/__init__.py` lines
43−55 and 297−355.  Per family, `error_fun` skips candidates missing a
required model, skips held-out records sharing no target key, averages the
per-record comparison scores (`np.mean([]) if err else np.nan`), and pushes
`(err, len(e_mods), co_i, m)` onto a `heapq` heap; the top of the heap,
`heap[0]`, provides the selected models.  Python float comparisons against
NaN are always false, so a NaN-scored tuple pushed before a finite-scored
one stays at the heap root.  NaN is modelled as `none`.  The dispatch call
producing a candidate's predictions on a held-out record is external and
passed as the function parameter `predict`. -/

/-- Python `==` on possibly-NaN floats: any comparison with NaN is false. -/
def pyFloatBeq : Option ℚ → Option ℚ → Bool
  | some a, some b => a == b
  | _, _ => false

/-- Python `<` on possibly-NaN floats: any comparison with NaN is false. -/
def pyFloatBlt : Option ℚ → Option ℚ → Bool
  | some a, some b => decide (a < b)
  | _, _ => false

/-- One entry of the ranking heap: the tuple
`(err, len(e_mods), co_i, m)` pushed by `error_fun`. -/
structure HeapItem (μ : Type) where
  err : Option ℚ
  nmods : Nat
  src : String
  models : PyDict μ
deriving DecidableEq

instance {μ : Type} : Inhabited (HeapItem μ) := ⟨⟨none, 0, "", []⟩⟩

/-- Python tuple `<` on heap entries: lexicographic, each position first
tested with `==` and decided with `<` when unequal.  Comparison never
reaches the final dictionary component in the modelled runs (the first three
components never all compare equal there). -/
def itemLt {μ : Type} (x y : HeapItem μ) : Bool :=
  if !pyFloatBeq x.err y.err then pyFloatBlt x.err y.err
  else if x.nmods != y.nmods then decide (x.nmods < y.nmods)
  else if x.src != y.src then decide (x.src < y.src)
  else false

/-- List update at an index, used to model in-place assignment `heap[pos] = v`. -/
def listSet {β : Type} : List β → Nat → β → List β
  | [], _, _ => []
  | _ :: xs, 0, v => v :: xs
  | x :: xs, n + 1, v => x :: listSet xs n v

/-- List read at an index with a default, used to model `heap[parentpos]`. -/
def listGet {β : Type} [Inhabited β] : List β → Nat → β
  | [], _ => default
  | x :: _, 0 => x
  | _ :: xs, n + 1 => listGet xs n

/-- The `_siftdown` loop of Python `heapq` (with `startpos = 0`), with
explicit fuel for the walk towards the root. -/
def heapSiftdown {μ : Type} (item : HeapItem μ) (arr : List (HeapItem μ)) :
    Nat → Nat → List (HeapItem μ)
  | pos, 0 => listSet arr pos item
  | pos, fuel + 1 =>
    if pos = 0 then listSet arr pos item
    else
      let parentpos := (pos - 1) / 2
      let parent := listGet arr parentpos
      if itemLt item parent then
        heapSiftdown item (listSet arr pos parent) parentpos fuel
      else listSet arr pos item

/-- Python `heapq.heappush`: append, then sift the new item towards the
root. -/
def heappush {μ : Type} (heap : List (HeapItem μ)) (item : HeapItem μ) :
    List (HeapItem μ) :=
  let arr := heap ++ [item]
  heapSiftdown item arr (arr.length - 1) arr.length

/-- Sklearn `mean_absolute_error` on equal-length vectors. -/
def mean_absolute_error (y_true y_pred : List ℚ) : ℚ :=
  (List.zipWith (fun a b => |a - b|) y_true y_pred).sum / (y_true.length : ℚ)

/-- Shallow embedding of `compare_result` with its default unit sample
weights: average the mean absolute error over target keys present in both
dictionaries; `np.nan` (`none`) when no key overlaps. -/
def compare_result (target_ids : List String)
    (model_results target_results : PyDict (List ℚ)) : Option ℚ :=
  let err := target_ids.filterMap (fun t =>
    match dictLookup model_results t, dictLookup target_results t with
    | some ym, some yt => some (mean_absolute_error yt ym)
    | _, _ => none)
  if err.isEmpty then none else some (err.sum / (err.length : ℚ))

/-- Numpy `mean` over the collected per-record scores: NaN-propagating. -/
def pyMean (errs : List (Option ℚ)) : Option ℚ :=
  if errs.any (·.isNone) then none
  else some ((errs.filterMap id).sum / (errs.length : ℚ))

/-- One family descriptor `{models, targets}` of the comparison policy. -/
structure FamilyDescriptor where
  models : List String
  targets : List String

/-- Shallow embedding of the `error_fun` closure in `model_selector`:
candidates missing a required model are not scored at all; held-out records
sharing no target key are skipped; the mean score (NaN when no comparable
record exists) is pushed onto the heap together with the candidate's
extracted models. -/
def error_fun {μ : Type}
    (predict : PyDict μ → PyDict (List ℚ) → PyDict (List ℚ))
    (fam : FamilyDescriptor) (e_mods : PyDict μ)
    (res_t : List (PyDict (List ℚ))) (co_i : String)
    (heap : List (HeapItem μ)) : List (HeapItem μ) :=
  if fam.models.any (fun m => !dictContains e_mods m) then heap
  else
    let errs := res_t.filterMap (fun t =>
      if fam.targets.all (fun k => !dictContains t k) then none
      else some (compare_result fam.targets (predict e_mods t) t))
    let err := if errs.isEmpty then none else pyMean errs
    let m := fam.models.filterMap
      (fun k => (dictLookup e_mods k).map (fun v => (k, v)))
    heappush heap ⟨err, e_mods.length, co_i, m⟩

/-- One candidate of the per-family loop `for v in em_rt: error_fun(*v)`:
its extracted models, the held-out records, and its cycle name. -/
structure CandidateInput (μ : Type) where
  e_mods : PyDict μ
  res_t : List (PyDict (List ℚ))
  co_i : String

/-- The per-family loop of `model_selector`, starting from the empty heap. -/
def run_family {μ : Type}
    (predict : PyDict μ → PyDict (List ℚ) → PyDict (List ℚ))
    (fam : FamilyDescriptor) (candidates : List (CandidateInput μ)) :
    List (HeapItem μ) :=
  candidates.foldl
    (fun h c => error_fun predict fam c.e_mods c.res_t c.co_i h) []

/-- The selection step `if heap: models.update(heap[0][-1])`: the heap root
is the selected candidate. -/
def selected_candidate {μ : Type} (heap : List (HeapItem μ)) :
    Option (HeapItem μ) :=
  heap.head?

/-- C6 (amended): for a candidate holding all the family's models, held-out
records with no overlapping target keys are skipped, and when no comparable
record exists the candidate receives an undefined (NaN) score — but it is
still pushed onto the ranking heap rather than excluded, so it can become
the selected top-ranked candidate. -/
theorem model_selector_nan_candidate (μ : Type)
    (predict : PyDict μ → PyDict (List ℚ) → PyDict (List ℚ))
    (fam : FamilyDescriptor) (e_mods : PyDict μ)
    (res_t : List (PyDict (List ℚ))) (co_i : String)
    (heap : List (HeapItem μ))
    (hmods : fam.models.all (fun m => dictContains e_mods m) = true)
    (hskip : res_t.all
      (fun t => fam.targets.all (fun k => !dictContains t k)) = true) :
    error_fun predict fam e_mods res_t co_i heap =
      heappush heap
        ⟨none, e_mods.length, co_i,
          fam.models.filterMap
            (fun k => (dictLookup e_mods k).map (fun v => (k, v)))⟩ := by
  unfold error_fun
  have h1 : fam.models.any (fun m => !dictContains e_mods m) = false := by
    rw [List.any_eq_false]
    intro m hm
    rw [List.all_eq_true] at hmods
    simp [hmods m hm]
  have h2 : res_t.filterMap (fun t =>
      if fam.targets.all (fun k => !dictContains t k) then none
      else some (compare_result fam.targets (predict e_mods t) t)) =
        ([] : List (Option ℚ)) := by
    rw [List.filterMap_eq_nil_iff]
    intro t ht
    rw [List.all_eq_true] at hskip
    simp [hskip t ht]
  simp only [h1, Bool.false_eq_true, if_false]
  rw [h2]
  rfl

/-- Witness for `model_selector_nan_candidate` at a concrete candidate with
one held-out record sharing no target key. -/
theorem model_selector_nan_candidate_witness :
    (FamilyDescriptor.mk ["m1"] ["tgt"]).models.all
        (fun m => dictContains [("m1", (0 : ℚ))] m) = true ∧
      ([[("other", [(1 : ℚ)])]] : List (PyDict (List ℚ))).all
        (fun t => (FamilyDescriptor.mk ["m1"] ["tgt"]).targets.all
          (fun k => !dictContains t k)) = true ∧
      error_fun (fun _ _ => [("tgt", [1, 2])]) ⟨["m1"], ["tgt"]⟩
          [("m1", (0 : ℚ))] [[("other", [1])]] "cycA" [] =
        heappush []
          ⟨none, ([("m1", (0 : ℚ))] : PyDict ℚ).length, "cycA",
            (["m1"] : List String).filterMap
              (fun k => (dictLookup [("m1", (0 : ℚ))] k).map (fun v => (k, v)))⟩ :=
  ⟨by decide, by decide,
    model_selector_nan_candidate ℚ (fun _ _ => [("tgt", [1, 2])])
      ⟨["m1"], ["tgt"]⟩ [("m1", 0)] [[("other", [1])]] "cycA" []
      (by decide) (by decide)⟩

/-- Family, predictions and candidates of the C6 counterexample run. -/
def cexFamily : FamilyDescriptor := ⟨["m1"], ["tgt"]⟩

/-- Candidate predictions on any held-out record (external dispatch result). -/
def cexPredict : PyDict ℚ → PyDict (List ℚ) → PyDict (List ℚ) :=
  fun _ _ => [("tgt", [3])]

/-- Candidate with no comparable held-out record: its single record lacks
the target key. -/
def cexCandA : CandidateInput ℚ := ⟨[("m1", 0)], [[("other", [1])]], "cycA"⟩

/-- Candidate with one comparable held-out record matching its predictions
exactly (score 0). -/
def cexCandB : CandidateInput ℚ := ⟨[("m1", 0)], [[("tgt", [3])]], "cycB"⟩

/-- C6 counterexample: candidate A (no comparable record, NaN score) is
pushed first; candidate B scores 0; yet `heap[0]` — the selected candidate —
is the NaN-scored A, because every comparison against NaN is false.  This
refutes the claim that a NaN-scored candidate is excluded from the ranking
and can never be selected. -/
theorem model_selector_nan_selected_cex :
    run_family cexPredict cexFamily [cexCandA, cexCandB] =
        [⟨none, 1, "cycA", [("m1", 0)]⟩, ⟨some 0, 1, "cycB", [("m1", 0)]⟩] ∧
      selected_candidate (run_family cexPredict cexFamily [cexCandA, cexCandB]) =
        some ⟨none, 1, "cycA", [("m1", 0)]⟩ ∧
      (⟨some 0, 1, "cycB", [("m1", 0)]⟩ : HeapItem ℚ).err ≠ none := by
  have hrun : run_family cexPredict cexFamily [cexCandA, cexCandB] =
      [⟨none, 1, "cycA", [("m1", 0)]⟩, ⟨some 0, 1, "cycB", [("m1", 0)]⟩] := by
    have hmae : mean_absolute_error [3] [3] = 0 := by
      norm_num [mean_absolute_error]
    simp [run_family, error_fun, cexPredict, cexFamily, cexCandA, cexCandB,
      dictContains, dictLookup, compare_result, pyMean, heappush,
      heapSiftdown, itemLt, pyFloatBeq, pyFloatBlt, listSet, listGet,
      hmae]
  refine ⟨hrun, ?_, by simp⟩
  rw [hrun]
  rfl
